import Mathlib

set_option linter.unusedVariables false

/-! Shallow embedding of the donation saga of this repository: donation intake
    (donation-service, src/unnamed/part_006), payment processor (payment-service,
    src/unnamed/part_000) and campaign aggregator (campaign-service,
    src/unnamed/part_003), together with the claims about them. -/

/-- Association-list lookup, modelling keyed reads (JS Map.get, SQL SELECT by key). -/
def lookupKey {α β : Type} [DecidableEq α] : List (α × β) → α → Option β
  | [], _ => none
  | (k, v) :: rest, key => if k = key then some v else lookupKey rest key

/-- Association-list update of an existing key (SQL UPDATE by key); a list without
    the key is returned unchanged. -/
def setKey {α β : Type} [DecidableEq α] : List (α × β) → α → β → List (α × β)
  | [], _, _ => []
  | (k, v) :: rest, key, nv =>
    if k = key then (key, nv) :: rest else (k, v) :: setKey rest key nv

/-- JSON values a request-body field can hold, as far as the donation endpoint
    inspects them. -/
inductive JsVal : Type where
  | vNull : JsVal
  | vStr : String → JsVal
  | vNum : ℚ → JsVal
  deriving DecidableEq, Repr

/-- JavaScript truthiness of a possibly absent body field: absent and null are falsy,
    as are the empty string and the number 0. -/
def jsTruthy : Option JsVal → Bool
  | none => false
  | some JsVal.vNull => false
  | some (JsVal.vStr s) => decide (s ≠ "")
  | some (JsVal.vNum q) => decide (q ≠ 0)

/-- JavaScript truthiness of a possibly absent header string. -/
def headerTruthy : Option String → Bool
  | none => false
  | some s => decide (s ≠ "")

/-- Numeric value of a decimal digit character (0 for non-digits, which the
    callers exclude beforehand). -/
def digitVal (c : Char) : ℕ :=
  if c = '1' then 1 else if c = '2' then 2 else if c = '3' then 3
  else if c = '4' then 4 else if c = '5' then 5 else if c = '6' then 6
  else if c = '7' then 7 else if c = '8' then 8 else if c = '9' then 9 else 0

/-- Splits off the longest leading run of decimal digits, as digit values. -/
def takeDigits : List Char → List ℕ × List Char
  | [] => ([], [])
  | c :: cs =>
    if c.isDigit then
      let p := takeDigits cs
      (digitVal c :: p.1, p.2)
    else ([], c :: cs)

/-- Value of a digit list read most-significant first. -/
def natOfDigits (ds : List ℕ) : ℕ := ds.foldl (fun acc d => 10 * acc + d) 0

/-- Value of a digit list read as a decimal fraction. -/
def fracOfDigits (ds : List ℕ) : ℚ := ds.foldr (fun d acc => ((d : ℚ) + acc) / 10) 0

/-- JavaScript parseFloat on a character list: skip leading whitespace, optional sign,
    then the longest numeric prefix; `none` models NaN (no numeric prefix). Exponent
    notation is not modelled; no input in this development uses it. -/
def parseFloatChars (cs : List Char) : Option ℚ :=
  let cs1 := cs.dropWhile Char.isWhitespace
  let sp : ℚ × List Char :=
    match cs1 with
    | '-' :: rest => (-1, rest)
    | '+' :: rest => (1, rest)
    | _ => (1, cs1)
  let ip := takeDigits sp.2
  match ip.2 with
  | '.' :: rest =>
    let fp := takeDigits rest
    if ip.1.isEmpty && fp.1.isEmpty then none
    else some (sp.1 * ((natOfDigits ip.1 : ℚ) + fracOfDigits fp.1))
  | _ => if ip.1.isEmpty then none else some (sp.1 * (natOfDigits ip.1 : ℚ))

/-- parseFloat as applied to a request-body field: strings are parsed, finite numbers
    round-trip through their decimal rendering, absent and null fields give NaN. -/
def parseFloatVal : Option JsVal → Option ℚ
  | some (JsVal.vStr s) => parseFloatChars s.data
  | some (JsVal.vNum q) => some q
  | _ => none

/-- JavaScript parseInt (radix 10) on a character list; `none` models NaN. -/
def parseIntChars (cs : List Char) : Option ℤ :=
  let cs1 := cs.dropWhile Char.isWhitespace
  let sp : ℤ × List Char :=
    match cs1 with
    | '-' :: rest => (-1, rest)
    | '+' :: rest => (1, rest)
    | _ => (1, cs1)
  let ip := takeDigits sp.2
  if ip.1.isEmpty then none else some (sp.1 * (natOfDigits ip.1 : ℤ))

/-- parseInt as applied to a request-body field; numbers go through their decimal
    rendering, which for the integral values occurring here is exact. -/
def parseIntVal : Option JsVal → Option ℤ
  | some (JsVal.vStr s) => parseIntChars s.data
  | some (JsVal.vNum q) => some (q.num.tdiv (q.den : ℤ))
  | _ => none

/-- JavaScript `x <= c` where `x` may be NaN (`none`): NaN comparisons are false. -/
def jsLe (x : Option ℚ) (c : ℚ) : Bool :=
  match x with
  | none => false
  | some q => decide (q ≤ c)

/-- Addition as performed by the campaign UPDATE; `none` (NaN) absorbs. -/
def jsAdd : Option ℚ → Option ℚ → Option ℚ
  | some a, some b => some (a + b)
  | _, _ => none

/-- Wire payload of a donation-requested event (donationData in donation-service);
    a `none` amount is the NaN intake can publish, which the JSON wire encoding
    turns into null for consumers. -/
structure DonationEvent where
  donationId : String
  idempotencyKey : String
  campaignId : Option ℤ
  userId : String
  userEmail : String
  amount : Option ℚ
  currency : String
  timestamp : String
  status : String
  deriving DecidableEq, Repr

/-- The donation object embedded in a successful intake response. -/
structure DonationBody where
  donationId : String
  campaignId : Option ℤ
  amount : Option ℚ
  currency : String
  timestamp : String
  deriving DecidableEq, Repr

/-- An intake HTTP response: status code plus the JSON body fields the endpoint can
    emit; absent JSON fields are modelled as `none` or `false`. -/
structure Response where
  status : ℕ
  success : Bool
  error : Option String
  message : String
  donation : Option DonationBody
  replayed : Bool
  deriving DecidableEq, Repr

/-- An idempotency-cache entry: the cached response and its creation time. -/
structure CacheEntry where
  response : Response
  timestamp : ℕ
  deriving DecidableEq, Repr

/-- Donation-intake state: the idempotency cache plus the donation-requested events
    published to the bus so far. -/
structure IntakeState where
  idempotencyCache : List (String × CacheEntry)
  published : List DonationEvent
  deriving DecidableEq, Repr

/-- Inputs of POST /api/donate: body fields, the Idempotency-Key header and the
    authenticated user from req.user. -/
structure DonateRequest where
  campaignId : Option JsVal
  amount : Option JsVal
  idempotencyKey : Option String
  userId : String
  userEmail : String
  deriving DecidableEq, Repr

/-- Modelled from the spec: publishDonation of the donation-service Kafka producer is
    not in the sources; per the Event Bus contract it appends the payload to the
    donation topic. -/
def publishDonation (st : IntakeState) (ev : DonationEvent) : IntakeState :=
  { st with published := st.published ++ [ev] }

/-- The POST /api/donate handler of donation-service, with the fresh donation id, the
    ISO timestamp string and the clock value passed in for the nondeterministic parts. -/
def submitDonation (freshId ts : String) (now : ℕ) (req : DonateRequest)
    (st : IntakeState) : Response × IntakeState :=
  if !(headerTruthy req.idempotencyKey) then
    ({ status := 400, success := false, error := some ("Idempotency key required"),
       message := "Please provide an Idempotency-Key header to prevent duplicate donations",
       donation := none, replayed := false }, st)
  else
    let key := req.idempotencyKey.getD ""
    match lookupKey st.idempotencyCache key with
    | some entry =>
      ({ entry.response with
         status := 200
         replayed := true
         message := "Donation already processed (duplicate request prevented)" }, st)
    | none =>
      if !(jsTruthy req.campaignId) then
        ({ status := 400, success := false, error := some ("Campaign ID is required"),
           message := "Please provide a campaignId in the request body",
           donation := none, replayed := false }, st)
      else if !(jsTruthy req.amount) || jsLe (parseFloatVal req.amount) 0 then
        ({ status := 400, success := false, error := some ("Invalid amount"),
           message := "Donation amount must be greater than 0",
           donation := none, replayed := false }, st)
      else
        let ev : DonationEvent :=
          { donationId := freshId, idempotencyKey := key,
            campaignId := parseIntVal req.campaignId, userId := req.userId,
            userEmail := req.userEmail, amount := parseFloatVal req.amount,
            currency := "USD", timestamp := ts, status := "pending" }
        let resp : Response :=
          { status := 201, success := true, error := none,
            message := "Donation received successfully",
            donation := some
              { donationId := freshId, campaignId := ev.campaignId, amount := ev.amount,
                currency := "USD", timestamp := ts },
            replayed := false }
        let st1 := publishDonation st ev
        (resp, { st1 with
                 idempotencyCache :=
                   (key, { response := resp, timestamp := now }) :: st1.idempotencyCache })

/-- Account ledger of payment-service: user id to balance. -/
abbrev AccountLedger := List (String × ℚ)

/-- Modelled from the spec: db.getUserBalance of payment-service (db.js is not in the
    sources); reads the balance of the account row, `none` when no account exists. -/
def getUserBalance (ledger : AccountLedger) (userId : String) : Option ℚ :=
  lookupKey ledger userId

/-- Modelled from the spec: db.deductBalance of payment-service (db.js is not in the
    sources); the single atomic conditional deduct, decrementing only when the amount
    is a number and the balance still covers it at commit time, failing otherwise;
    returns the updated ledger and the new balance. -/
def deductBalance (ledger : AccountLedger) (userId : String) (amount : Option ℚ) :
    Except String (AccountLedger × ℚ) :=
  match amount with
  | none => Except.error ("conditional deduct failed")
  | some a =>
    match getUserBalance ledger userId with
    | none => Except.error ("conditional deduct failed")
    | some b =>
      if a ≤ b then Except.ok (setKey ledger userId (b - a), b - a)
      else Except.error ("conditional deduct failed")

/-- Wire payload of a payment-settled event, with the optional fields of the
    success and failure variants. -/
structure PaymentEvent where
  donationId : String
  userId : String
  userEmail : String
  campaignId : Option ℤ
  amount : Option ℚ
  timestamp : String
  status : String
  reason : Option String
  currentBalance : Option ℚ
  previousBalance : Option ℚ
  newBalance : Option ℚ
  idempotencyKey : String
  deriving DecidableEq, Repr

/-- Payment-processor state: the account ledger plus the payment events published so far. -/
structure PaymentState where
  ledger : AccountLedger
  published : List PaymentEvent
  deriving DecidableEq, Repr

/-- Modelled from the spec: publishPaymentEvent of the payment-service Kafka producer
    is not in the sources; per the Event Bus contract it appends the payload to the
    payment topic. -/
def publishPaymentEvent (st : PaymentState) (p : PaymentEvent) : PaymentState :=
  { st with published := st.published ++ [p] }

/-- The failure payload processDonation publishes: status failed, a reason and an
    optional currentBalance. -/
def paymentFailedEvent (ev : DonationEvent) (ts reason : String)
    (currentBalance : Option ℚ) : PaymentEvent :=
  { donationId := ev.donationId, userId := ev.userId, userEmail := ev.userEmail,
    campaignId := ev.campaignId, amount := ev.amount, timestamp := ts,
    status := "failed", reason := some reason, currentBalance := currentBalance,
    previousBalance := none, newBalance := none, idempotencyKey := ev.idempotencyKey }

/-- The success payload processDonation publishes, carrying previous and new balance. -/
def paymentSuccessEvent (ev : DonationEvent) (ts : String)
    (previousBalance newBalance : ℚ) : PaymentEvent :=
  { donationId := ev.donationId, userId := ev.userId, userEmail := ev.userEmail,
    campaignId := ev.campaignId, amount := ev.amount, timestamp := ts,
    status := "success", reason := none, currentBalance := none,
    previousBalance := some previousBalance, newBalance := some newBalance,
    idempotencyKey := ev.idempotencyKey }

/-- processDonation of payment-service together with its consumer wrapper: the
    logging line calling amount.toFixed runs before the try block, so an event
    whose amount is not a number (null on the wire) throws there, the exception
    escapes to the eachMessage catch which logs and acknowledges, and nothing is
    published - the donation is dropped. For a numeric amount the handler does
    the balance lookup, the insufficient-balance check and the conditional
    debit, publishing exactly one outcome per branch; its catch branch publishes
    a failure carrying the error message as its reason. -/
def processDonation (st : PaymentState) (ev : DonationEvent) (ts : String) :
    PaymentState :=
  match ev.amount with
  | none => st
  | some a =>
    match getUserBalance st.ledger ev.userId with
    | none =>
      publishPaymentEvent st
        (paymentFailedEvent ev ts ("User account not found") none)
    | some balance =>
      if balance < a then
        publishPaymentEvent st
          (paymentFailedEvent ev ts ("Insufficient balance") (some balance))
      else
        match deductBalance st.ledger ev.userId (some a) with
        | Except.ok res =>
          publishPaymentEvent { st with ledger := res.1 }
            (paymentSuccessEvent ev ts balance res.2)
        | Except.error msg =>
          publishPaymentEvent st (paymentFailedEvent ev ts msg none)

/-- The donation-topic consumer loop: per-partition sequential processing of the
    delivered messages. -/
def processDonations (st : PaymentState) (evs : List DonationEvent) (ts : String) :
    PaymentState :=
  evs.foldl (fun s e => processDonation s e ts) st

/-- Campaign ledger of campaign-service: campaign id to total raised; a `none` total
    models the numeric NaN a non-numeric increment would leave behind. -/
abbrev CampaignLedger := List (ℤ × Option ℚ)

/-- The read-through Redis cache of campaign-service: the per-campaign entries and the
    all-campaigns entry, with opaque cached payloads. -/
structure CacheState where
  perCampaign : List (ℤ × String)
  allCampaigns : Option String
  deriving DecidableEq, Repr

/-- Campaign-aggregator state: the campaigns table and the Redis cache. -/
structure AggState where
  campaigns : CampaignLedger
  cache : CacheState
  deriving DecidableEq, Repr

/-- invalidateCache of campaign-service: deletes the single-campaign entry and the
    all-campaigns entry. -/
def invalidateCache (campaignId : ℤ) (c : CacheState) : CacheState :=
  { perCampaign := c.perCampaign.filter (fun kv => decide (kv.1 ≠ campaignId)),
    allCampaigns := none }

/-- updateCampaignTotal of campaign-service: inside one transaction, increment the
    campaign total; zero rows updated (unknown id) rolls back and acknowledges;
    on commit the cache entries are invalidated. -/
def updateCampaignTotal (st : AggState) (ev : PaymentEvent) : AggState :=
  match ev.campaignId with
  | none => st
  | some c =>
    match lookupKey st.campaigns c with
    | none => st
    | some total =>
      { campaigns := setKey st.campaigns c (jsAdd total ev.amount),
        cache := invalidateCache c st.cache }

/-- The payment-topic consumer handler of campaign-service: only success events
    mutate the ledger. -/
def aggStep (st : AggState) (ev : PaymentEvent) : AggState :=
  if ev.status = "success" then updateCampaignTotal st ev else st

/-- The payment-topic consumer loop: sequential processing of the delivered events. -/
def aggRun (st : AggState) (evs : List PaymentEvent) : AggState :=
  evs.foldl aggStep st

/-- One settlement step of processDonation, as a pure ledger/events pair; the
    event list is empty exactly on the pre-try crash for a non-numeric amount.
    Proved equal to processDonation below. -/
def settle (l : AccountLedger) (ev : DonationEvent) (ts : String) :
    AccountLedger × List PaymentEvent :=
  match ev.amount with
  | none => (l, [])
  | some a =>
    match getUserBalance l ev.userId with
    | none => (l, [paymentFailedEvent ev ts ("User account not found") none])
    | some balance =>
      if balance < a then
        (l, [paymentFailedEvent ev ts ("Insufficient balance") (some balance)])
      else
        match deductBalance l ev.userId (some a) with
        | Except.ok res => (res.1, [paymentSuccessEvent ev ts balance res.2])
        | Except.error msg => (l, [paymentFailedEvent ev ts msg none])

/-- The consumer loop as a pure function from a ledger and a message list to the
    final ledger and the emitted events, in order. -/
def settleRun (l : AccountLedger) (evs : List DonationEvent) (ts : String) :
    AccountLedger × List PaymentEvent :=
  match evs with
  | [] => (l, [])
  | e :: rest =>
    let s := settle l e ts
    let r := settleRun s.1 rest ts
    (r.1, s.2 ++ r.2)

/-- Sum of the amounts of the success events of one donor in an event list. -/
def successTotal (u : String) (ps : List PaymentEvent) : ℚ :=
  ((ps.filter (fun p => decide (p.userId = u ∧ p.status = "success"))).map
    (fun p => p.amount.getD 0)).sum

/-- Amounts of the success events for one campaign in an event list. -/
def successAmountsFor (c : ℤ) (evs : List PaymentEvent) : List (Option ℚ) :=
  (evs.filter (fun e => decide (e.status = "success" ∧ e.campaignId = some c))).map
    (fun e => e.amount)

theorem lookupKey_setKey_self {α β : Type} [DecidableEq α] (l : List (α × β))
    (k : α) (v0 v : β) (h : lookupKey l k = some v0) :
    lookupKey (setKey l k v) k = some v := by
  induction l with
  | nil => simp [lookupKey] at h
  | cons kv rest ih =>
    obtain ⟨k1, v1⟩ := kv
    by_cases hk : k1 = k
    · subst hk
      simp [lookupKey, setKey]
    · simp only [lookupKey, setKey, if_neg hk] at h ⊢
      exact ih h

theorem lookupKey_setKey_ne {α β : Type} [DecidableEq α] (l : List (α × β))
    (k k2 : α) (v : β) (h : k2 ≠ k) :
    lookupKey (setKey l k v) k2 = lookupKey l k2 := by
  induction l with
  | nil => simp [setKey]
  | cons kv rest ih =>
    obtain ⟨k1, v1⟩ := kv
    by_cases hk : k1 = k
    · subst hk
      simp [setKey, lookupKey, Ne.symm h]
    · by_cases hk2 : k1 = k2
      · subst hk2
        simp [setKey, lookupKey, hk]
      · simp [setKey, lookupKey, hk, hk2, ih]

theorem lookupKey_filter_ne {β : Type} (l : List (ℤ × β)) (c : ℤ) :
    lookupKey (l.filter (fun kv => decide (kv.1 ≠ c))) c = none := by
  induction l with
  | nil => simp [lookupKey]
  | cons kv rest ih =>
    obtain ⟨k1, v1⟩ := kv
    by_cases hk : k1 = c
    · subst hk
      simpa [List.filter] using ih
    · simpa [List.filter, hk, lookupKey] using ih

theorem deductBalance_ok (l : AccountLedger) (u : String) (a b : ℚ)
    (hb : getUserBalance l u = some b) (hab : a ≤ b) :
    deductBalance l u (some a) = Except.ok (setKey l u (b - a), b - a) := by
  simp [deductBalance, hb, hab]

theorem processDonation_eq_settle (st : PaymentState) (ev : DonationEvent)
    (ts : String) :
    processDonation st ev ts =
      { ledger := (settle st.ledger ev ts).1,
        published := st.published ++ (settle st.ledger ev ts).2 } := by
  unfold processDonation settle publishPaymentEvent
  cases ha : ev.amount with
  | none => simp
  | some a =>
    cases h : getUserBalance st.ledger ev.userId with
    | none => simp
    | some b =>
      by_cases hlt : b < a
      · simp [hlt]
      · cases hd : deductBalance st.ledger ev.userId (some a) with
        | ok res => simp [hlt, hd]
        | error msg => simp [hlt, hd]

theorem settle_length_of_some (l : AccountLedger) (ev : DonationEvent)
    (ts : String) (a : ℚ) (ha : ev.amount = some a) :
    (settle l ev ts).2.length = 1 := by
  cases h : getUserBalance l ev.userId with
  | none => simp [settle, ha, h]
  | some b =>
    by_cases hlt : b < a
    · simp [settle, ha, h, hlt]
    · cases hd : deductBalance l ev.userId (some a) with
      | ok res => simp [settle, ha, h, hlt, hd]
      | error m => simp [settle, ha, h, hlt, hd]

/-- A donation-requested fixture: donor u1 gives 30 to campaign 1. -/
def donEv30 : DonationEvent :=
  { donationId := "DON-1", idempotencyKey := "K1", campaignId := some 1,
    userId := "u1", userEmail := "u1@x", amount := some 30, currency := "USD",
    timestamp := "T1", status := "pending" }

/-- An account-ledger fixture: donor u1 holds balance 100. -/
def ledger100 : AccountLedger := [("u1", 100)]

/-- A donation-requested fixture with a non-numeric amount (null on the wire),
    as intake publishes for an amount string like abc. -/
def donEvNaN : DonationEvent :=
  { donationId := "DON-N", idempotencyKey := "KN", campaignId := some 1,
    userId := "u1", userEmail := "u1@x", amount := none, currency := "USD",
    timestamp := "T1", status := "pending" }

/-- C1 as frozen is refuted: a donation-requested event whose amount is not a
    number - which intake does publish, see C9 - makes the handler throw at the
    logging line before the try block; the consumer catch swallows it and zero
    payment-settled events are emitted, not exactly one, and no processing-error
    failure appears. -/
theorem c1_exactly_one_counterexample :
    donEvNaN.amount = none ∧
    (processDonation { ledger := ledger100, published := [] } donEvNaN
        "T2").published = [] ∧
    processDonation { ledger := ledger100, published := [] } donEvNaN "T2" =
      { ledger := ledger100, published := [] } := by
  exact ⟨rfl, rfl, rfl⟩

/-- C1 amended: a donation-requested event with a numeric amount produces
    exactly one payment-settled event, with outcome: an account-not-found
    failure when no account exists for the donor id; an insufficient-balance
    failure carrying the current balance when the balance is below the amount;
    otherwise a debit of the balance and a success event carrying
    previousBalance, newBalance and the amount. An event whose amount is not a
    number crashes the handler before any settlement step and is consumed with
    zero payment events published - the donation is silently dropped. -/
theorem c1_settlement_dispatch (st : PaymentState) (ev : DonationEvent)
    (ts : String) :
    (ev.amount = none → processDonation st ev ts = st) ∧
    (∀ a, ev.amount = some a →
      (processDonation st ev ts).published.length = st.published.length + 1 ∧
      (getUserBalance st.ledger ev.userId = none →
        processDonation st ev ts =
          { ledger := st.ledger,
            published := st.published ++
              [paymentFailedEvent ev ts ("User account not found") none] }) ∧
      (∀ b, getUserBalance st.ledger ev.userId = some b →
        (b < a →
          processDonation st ev ts =
            { ledger := st.ledger,
              published := st.published ++
                [paymentFailedEvent ev ts ("Insufficient balance") (some b)] }) ∧
        (a ≤ b →
          processDonation st ev ts =
            { ledger := setKey st.ledger ev.userId (b - a),
              published := st.published ++
                [paymentSuccessEvent ev ts b (b - a)] }))) := by
  constructor
  · intro ha
    unfold processDonation
    rw [ha]
  · intro a ha
    refine ⟨?_, ?_, ?_⟩
    · rw [processDonation_eq_settle]
      simp [settle_length_of_some st.ledger ev ts a ha]
    · intro h
      rw [processDonation_eq_settle]
      simp [settle, ha, h]
    · intro b hb
      constructor
      · intro hlt
        rw [processDonation_eq_settle]
        simp [settle, ha, hb, hlt]
      · intro hba
        have hnlt : ¬ (b < a) := not_lt.mpr hba
        rw [processDonation_eq_settle]
        simp [settle, ha, hb, hnlt,
          deductBalance_ok st.ledger ev.userId a b hb hba]

/-- Witness for the amended C1 at a concrete input: donor u1 with balance 100
    donating 30 settles as exactly one success event debiting the ledger. -/
theorem c1_settlement_dispatch_witness :
    donEv30.amount = some 30 ∧
    getUserBalance ledger100 "u1" = some 100 ∧
    (30 : ℚ) ≤ 100 ∧
    processDonation { ledger := ledger100, published := [] } donEv30 "T2" =
      { ledger := setKey ledger100 "u1" (100 - 30),
        published := [] ++ [paymentSuccessEvent donEv30 "T2" 100 (100 - 30)] } := by
  refine ⟨rfl, by simp [getUserBalance, lookupKey, ledger100], by norm_num, ?_⟩
  exact (((c1_settlement_dispatch { ledger := ledger100, published := [] }
      donEv30 "T2").2 30 rfl).2.2 100
      (by simp [getUserBalance, lookupKey, ledger100, donEv30])).2 (by norm_num)

/-- C6 is refuted on the code: redelivering the identical donation-requested
    event debits the donor a second time; with balance 100 and amount 30, two
    deliveries leave balance 40 and two success events, not the single-charge
    balance 70. -/
theorem c6_redelivery_double_charges :
    lookupKey (processDonation
        (processDonation { ledger := ledger100, published := [] } donEv30 "T2")
        donEv30 "T3").ledger "u1" = some 40 ∧
    (processDonation
        (processDonation { ledger := ledger100, published := [] } donEv30 "T2")
        donEv30 "T3").published.map (fun p => p.status) = ["success", "success"] ∧
    some (40 : ℚ) ≠ some ((100 : ℚ) - 30) := by
  refine ⟨?_, ?_, by norm_num⟩
  · norm_num +decide [processDonation, getUserBalance, deductBalance,
      lookupKey, setKey, publishPaymentEvent, donEv30, ledger100]
  · norm_num +decide [processDonation, getUserBalance, deductBalance,
      lookupKey, setKey, publishPaymentEvent, paymentSuccessEvent, donEv30, ledger100]

theorem deductBalance_ok_inv (l : AccountLedger) (u : String) (amount : Option ℚ)
    (res : AccountLedger × ℚ) (h : deductBalance l u amount = Except.ok res) :
    ∃ a b, amount = some a ∧ getUserBalance l u = some b ∧ a ≤ b ∧
      res = (setKey l u (b - a), b - a) := by
  cases amount with
  | none => simp [deductBalance] at h
  | some a =>
    cases hb : getUserBalance l u with
    | none => simp [deductBalance, hb] at h
    | some b =>
      by_cases hab : a ≤ b
      · simp [deductBalance, hb, hab] at h
        exact ⟨a, b, rfl, rfl, hab, h.symm⟩
      · simp [deductBalance, hb, hab] at h

theorem settle_userId (l : AccountLedger) (ev : DonationEvent) (ts : String) :
    ∀ p ∈ (settle l ev ts).2, p.userId = ev.userId := by
  intro p hp
  cases ha : ev.amount with
  | none => simp [settle, ha] at hp
  | some a =>
    cases h : getUserBalance l ev.userId with
    | none =>
      simp [settle, ha, h] at hp
      subst hp
      rfl
    | some b =>
      by_cases hlt : b < a
      · simp [settle, ha, h, hlt] at hp
        subst hp
        rfl
      · cases hd : deductBalance l ev.userId (some a) with
        | ok res =>
          simp [settle, ha, h, hlt, hd] at hp
          subst hp
          rfl
        | error m =>
          simp [settle, ha, h, hlt, hd] at hp
          subst hp
          rfl

theorem processDonations_eq_settleRun (st : PaymentState) (evs : List DonationEvent)
    (ts : String) :
    processDonations st evs ts =
      { ledger := (settleRun st.ledger evs ts).1,
        published := st.published ++ (settleRun st.ledger evs ts).2 } := by
  induction evs generalizing st with
  | nil => simp [processDonations, settleRun]
  | cons e rest ih =>
    have h1 : processDonations st (e :: rest) ts =
        processDonations (processDonation st e ts) rest ts := rfl
    rw [h1, ih, processDonation_eq_settle]
    simp [settleRun]

theorem successTotal_cons (u : String) (p : PaymentEvent) (ps : List PaymentEvent) :
    successTotal u (p :: ps) =
      (if p.userId = u ∧ p.status = "success" then p.amount.getD 0 else 0) +
        successTotal u ps := by
  by_cases h : p.userId = u ∧ p.status = "success"
  · simp [successTotal, List.filter, h]
  · simp [successTotal, List.filter, h]

theorem successTotal_append (u : String) (ps qs : List PaymentEvent) :
    successTotal u (ps ++ qs) = successTotal u ps + successTotal u qs := by
  simp [successTotal, List.filter_append]

theorem successTotal_eq_zero_of_ne (u : String) (ps : List PaymentEvent)
    (h : ∀ p ∈ ps, p.userId ≠ u) : successTotal u ps = 0 := by
  induction ps with
  | nil => simp [successTotal]
  | cons p rest ih =>
    rw [successTotal_cons,
      if_neg (fun hc => h p (List.mem_cons_self p rest) hc.1),
      ih (fun q hq => h q (List.mem_cons_of_mem p hq))]
    ring

theorem settle_balance (l : AccountLedger) (ev : DonationEvent) (ts u : String)
    (b0 : ℚ) (hb : lookupKey l u = some b0) :
    ∃ b1, lookupKey (settle l ev ts).1 u = some b1 ∧
      (0 ≤ b0 → 0 ≤ b1) ∧
      b0 = b1 + successTotal u (settle l ev ts).2 := by
  cases ha : ev.amount with
  | none =>
    refine ⟨b0, ?_, fun h => h, ?_⟩
    · simpa [settle, ha] using hb
    · simp [settle, ha, successTotal]
  | some a =>
    by_cases hu : ev.userId = u
    · subst hu
      have hgb : getUserBalance l ev.userId = some b0 := hb
      by_cases hlt : b0 < a
      · refine ⟨b0, ?_, fun h => h, ?_⟩
        · simpa [settle, ha, hgb, hlt] using hb
        · simp [settle, ha, hgb, hlt, successTotal, List.filter,
            paymentFailedEvent]
      · have hba : a ≤ b0 := le_of_not_lt hlt
        refine ⟨b0 - a, ?_, fun _ => sub_nonneg.mpr hba, ?_⟩
        · simp [settle, ha, hgb, hlt,
            deductBalance_ok l ev.userId a b0 hgb hba]
          exact lookupKey_setKey_self l ev.userId b0 (b0 - a) hb
        · simp [settle, ha, hgb, hlt,
            deductBalance_ok l ev.userId a b0 hgb hba, successTotal,
            List.filter, paymentSuccessEvent]
    · have hl : lookupKey (settle l ev ts).1 u = lookupKey l u := by
        cases h : getUserBalance l ev.userId with
        | none => simp [settle, ha, h]
        | some b =>
          by_cases hlt : b < a
          · simp [settle, ha, h, hlt]
          · cases hd : deductBalance l ev.userId (some a) with
            | ok res =>
              obtain ⟨a2, b2, ha2, hb2, hab, hres⟩ := deductBalance_ok_inv l
                ev.userId (some a) res hd
              simp [settle, ha, h, hlt, hd, hres]
              exact lookupKey_setKey_ne l ev.userId u (b2 - a2) (Ne.symm hu)
            | error m => simp [settle, ha, h, hlt, hd]
      have hz : successTotal u (settle l ev ts).2 = 0 :=
        successTotal_eq_zero_of_ne u (settle l ev ts).2
          (fun p hp => by
            rw [settle_userId l ev ts p hp]
            exact hu)
      refine ⟨b0, by rw [hl]; exact hb, fun h => h, by rw [hz]; ring⟩

theorem settle_event_success (l : AccountLedger) (ev : DonationEvent) (ts : String) :
    ∀ p ∈ (settle l ev ts).2, p.status = "success" →
      ∃ pb a nb, p.previousBalance = some pb ∧ p.amount = some a ∧
        p.newBalance = some nb ∧ nb = pb - a := by
  intro p hp hs
  cases ha : ev.amount with
  | none => simp [settle, ha] at hp
  | some a =>
    cases h : getUserBalance l ev.userId with
    | none =>
      simp [settle, ha, h] at hp
      subst hp
      simp [paymentFailedEvent] at hs
    | some b =>
      by_cases hlt : b < a
      · simp [settle, ha, h, hlt] at hp
        subst hp
        simp [paymentFailedEvent] at hs
      · have hba : a ≤ b := le_of_not_lt hlt
        simp [settle, ha, h, hlt,
          deductBalance_ok l ev.userId a b h hba] at hp
        subst hp
        refine ⟨b, a, b - a, rfl, ?_, rfl, rfl⟩
        simpa [paymentSuccessEvent] using ha

theorem settle_event_failure (l : AccountLedger) (ev : DonationEvent) (ts u : String)
    (b0 : ℚ) (hb : lookupKey l u = some b0) (hu : ev.userId = u)
    (ha : ev.amount.isSome) :
    ∀ p ∈ (settle l ev ts).2,
      p.status = "success" ∨
      (p.status = "failed" ∧ p.reason = some ("Insufficient balance") ∧
       ∃ cb a, p.currentBalance = some cb ∧ p.amount = some a ∧ cb < a) := by
  subst hu
  have hgb : getUserBalance l ev.userId = some b0 := hb
  obtain ⟨a, ha⟩ := Option.isSome_iff_exists.mp ha
  intro p hp
  by_cases hlt : b0 < a
  · right
    simp [settle, ha, hgb, hlt] at hp
    subst hp
    refine ⟨rfl, rfl, b0, a, rfl, ?_, hlt⟩
    simpa [paymentFailedEvent] using ha
  · left
    have hba : a ≤ b0 := le_of_not_lt hlt
    simp [settle, ha, hgb, hlt,
      deductBalance_ok l ev.userId a b0 hgb hba] at hp
    subst hp
    rfl

theorem settleRun_success_conservation (ts : String) (evs : List DonationEvent) :
    ∀ l : AccountLedger, ∀ p ∈ (settleRun l evs ts).2, p.status = "success" →
      ∃ pb a nb, p.previousBalance = some pb ∧ p.amount = some a ∧
        p.newBalance = some nb ∧ nb = pb - a := by
  induction evs with
  | nil => intro l p hp; simp [settleRun] at hp
  | cons e rest ih =>
    intro l p hp hs
    have hshape : (settleRun l (e :: rest) ts).2 =
        (settle l e ts).2 ++ (settleRun (settle l e ts).1 rest ts).2 := rfl
    rw [hshape] at hp
    rcases List.mem_append.mp hp with hp | hp
    · exact settle_event_success l e ts p hp hs
    · exact ih (settle l e ts).1 p hp hs

theorem settleRun_donor (ts u : String) (evs : List DonationEvent) :
    ∀ (l : AccountLedger) (b0 : ℚ), lookupKey l u = some b0 →
      (∀ e ∈ evs, e.userId = u → e.amount.isSome) →
      ∃ b1, lookupKey (settleRun l evs ts).1 u = some b1 ∧
        (0 ≤ b0 → 0 ≤ b1) ∧
        b0 = b1 + successTotal u (settleRun l evs ts).2 ∧
        ∀ p ∈ (settleRun l evs ts).2, p.userId = u →
          (p.status = "success" ∨
           (p.status = "failed" ∧ p.reason = some ("Insufficient balance") ∧
            ∃ cb a, p.currentBalance = some cb ∧ p.amount = some a ∧ cb < a)) := by
  induction evs with
  | nil =>
    intro l b0 hb _
    exact ⟨b0, by simpa [settleRun] using hb, fun h => h,
      by simp [settleRun, successTotal], by simp [settleRun]⟩
  | cons e rest ih =>
    intro l b0 hb hnum
    obtain ⟨bm, hbm, hnn, heq⟩ := settle_balance l e ts u b0 hb
    obtain ⟨b1, hb1, hnn1, heq1, hfail1⟩ := ih (settle l e ts).1 bm hbm
      (fun e2 he2 => hnum e2 (List.mem_cons_of_mem e he2))
    have hshape : (settleRun l (e :: rest) ts).2 =
        (settle l e ts).2 ++ (settleRun (settle l e ts).1 rest ts).2 := rfl
    refine ⟨b1, ?_, fun h => hnn1 (hnn h), ?_, ?_⟩
    · simpa [settleRun] using hb1
    · rw [hshape, successTotal_append, heq, heq1]
      ring
    · intro p hp hpu
      rw [hshape] at hp
      rcases List.mem_append.mp hp with hp | hp
      · by_cases heu : e.userId = u
        · exact settle_event_failure l e ts u b0 hb heu
            (hnum e (List.mem_cons_self e rest) heu) p hp
        · have hcontra : e.userId = u := by
            rw [← settle_userId l e ts p hp]
            exact hpu
          exact absurd hcontra heu
      · exact hfail1 p hp hpu

/-- C2: over any message sequence processed by the payment consumer, every
    success event satisfies previousBalance - amount = newBalance; a donor's
    balance never becomes negative, and the final balance is the starting
    balance minus the sum of exactly the successful amounts, every other
    donation of the donor failing with the insufficient-balance reason because
    its amount exceeded the balance at its turn. -/
theorem c2_balance_conservation (l : AccountLedger) (evs : List DonationEvent)
    (ts u : String) (b0 : ℚ) (hb : lookupKey l u = some b0) (h0 : 0 ≤ b0)
    (hnum : ∀ e ∈ evs, e.userId = u → e.amount.isSome) :
    (∀ p ∈ (processDonations { ledger := l, published := [] } evs ts).published,
        p.status = "success" →
        ∃ pb a nb, p.previousBalance = some pb ∧ p.amount = some a ∧
          p.newBalance = some nb ∧ nb = pb - a) ∧
    (∃ b1, lookupKey
        (processDonations { ledger := l, published := [] } evs ts).ledger u =
          some b1 ∧ 0 ≤ b1 ∧
        b1 = b0 - successTotal u
          (processDonations { ledger := l, published := [] } evs ts).published) ∧
    (∀ p ∈ (processDonations { ledger := l, published := [] } evs ts).published,
        p.userId = u → p.status ≠ "success" →
        p.status = "failed" ∧ p.reason = some ("Insufficient balance") ∧
        ∃ cb a, p.currentBalance = some cb ∧ p.amount = some a ∧ cb < a) := by
  rw [processDonations_eq_settleRun]
  simp only [List.nil_append]
  obtain ⟨b1, hb1, hnn, heq, hfail⟩ := settleRun_donor ts u evs l b0 hb hnum
  refine ⟨?_, ⟨b1, hb1, hnn h0, by linarith⟩, ?_⟩
  · exact settleRun_success_conservation ts evs l
  · intro p hp hpu hps
    rcases hfail p hp hpu with h | h
    · exact absurd h hps
    · exact h

/-- A donation-requested fixture: donor u1 gives 60 to campaign 1. -/
def donEv60a : DonationEvent :=
  { donationId := "DON-A", idempotencyKey := "KA", campaignId := some 1,
    userId := "u1", userEmail := "u1@x", amount := some 60, currency := "USD",
    timestamp := "T1", status := "pending" }

/-- A second donation-requested fixture: donor u1 gives another 60 to campaign 1. -/
def donEv60b : DonationEvent :=
  { donationId := "DON-B", idempotencyKey := "KB", campaignId := some 1,
    userId := "u1", userEmail := "u1@x", amount := some 60, currency := "USD",
    timestamp := "T1", status := "pending" }

/-- Witness for C2 at a concrete input: balance 100 with two 60 donations -
    one succeeds, the remainder fails with insufficient balance. -/
theorem c2_balance_conservation_witness :
    lookupKey ledger100 "u1" = some 100 ∧ (0 : ℚ) ≤ 100 ∧
    (∀ e ∈ [donEv60a, donEv60b], e.userId = "u1" → e.amount.isSome) ∧
    ((∀ p ∈ (processDonations { ledger := ledger100, published := [] }
          [donEv60a, donEv60b] "T2").published,
        p.status = "success" →
        ∃ pb a nb, p.previousBalance = some pb ∧ p.amount = some a ∧
          p.newBalance = some nb ∧ nb = pb - a) ∧
    (∃ b1, lookupKey
        (processDonations { ledger := ledger100, published := [] }
          [donEv60a, donEv60b] "T2").ledger "u1" = some b1 ∧ (0 : ℚ) ≤ b1 ∧
        b1 = 100 - successTotal "u1"
          (processDonations { ledger := ledger100, published := [] }
            [donEv60a, donEv60b] "T2").published) ∧
    (∀ p ∈ (processDonations { ledger := ledger100, published := [] }
          [donEv60a, donEv60b] "T2").published,
        p.userId = "u1" → p.status ≠ "success" →
        p.status = "failed" ∧ p.reason = some ("Insufficient balance") ∧
        ∃ cb a, p.currentBalance = some cb ∧ p.amount = some a ∧ cb < a)) := by
  refine ⟨by simp [ledger100, lookupKey], by norm_num, by decide, ?_⟩
  exact c2_balance_conservation ledger100 [donEv60a, donEv60b] "T2" "u1" 100
    (by simp [ledger100, lookupKey]) (by norm_num) (by decide)

/-- C4: on a success-outcome event for a known campaign the aggregator adds the
    settled amount to that campaign inside the update transaction and afterwards
    deletes both the single-campaign and the all-campaigns cache entries, touching
    no other campaign; failure-outcome events change nothing; a success event for
    an unknown campaign id is rolled back and acknowledged, leaving the whole
    state unchanged and the consumer loop alive. -/
theorem c4_aggregator_dispatch (st : AggState) (ev : PaymentEvent) :
    (ev.status = "success" → ∀ c t, ev.campaignId = some c →
        lookupKey st.campaigns c = some t →
        lookupKey (aggStep st ev).campaigns c = some (jsAdd t ev.amount) ∧
        (∀ c2, c2 ≠ c →
          lookupKey (aggStep st ev).campaigns c2 = lookupKey st.campaigns c2) ∧
        lookupKey (aggStep st ev).cache.perCampaign c = none ∧
        (aggStep st ev).cache.allCampaigns = none) ∧
    (ev.status ≠ "success" → aggStep st ev = st) ∧
    (ev.status = "success" → ∀ c, ev.campaignId = some c →
        lookupKey st.campaigns c = none → aggStep st ev = st) := by
  refine ⟨?_, ?_, ?_⟩
  · intro hs c t hc ht
    refine ⟨?_, ?_, ?_, ?_⟩
    · simp only [aggStep, hs, if_pos, updateCampaignTotal, hc, ht]
      exact lookupKey_setKey_self st.campaigns c t (jsAdd t ev.amount) ht
    · intro c2 hc2
      simp only [aggStep, hs, if_pos, updateCampaignTotal, hc, ht]
      exact lookupKey_setKey_ne st.campaigns c c2 (jsAdd t ev.amount) hc2
    · simp only [aggStep, hs, if_pos, updateCampaignTotal, hc, ht, invalidateCache]
      exact lookupKey_filter_ne st.cache.perCampaign c
    · simp [aggStep, hs, updateCampaignTotal, hc, ht, invalidateCache]
  · intro hs
    simp [aggStep, hs]
  · intro hs c hc ht
    simp [aggStep, hs, updateCampaignTotal, hc, ht]

/-- A payment-settled fixture: success for 60 on campaign 1. -/
def payEvS60 : PaymentEvent :=
  { donationId := "DON-A", userId := "u1", userEmail := "u1@x",
    campaignId := some 1, amount := some 60, timestamp := "T2",
    status := "success", reason := none, currentBalance := none,
    previousBalance := some 100, newBalance := some 40, idempotencyKey := "KA" }

/-- A payment-settled fixture: failure for 40 on campaign 1. -/
def payEvF40 : PaymentEvent :=
  { donationId := "DON-B", userId := "u1", userEmail := "u1@x",
    campaignId := some 1, amount := some 40, timestamp := "T3",
    status := "failed", reason := some ("Insufficient balance"),
    currentBalance := some 40, previousBalance := none, newBalance := none,
    idempotencyKey := "KB" }

/-- A payment-settled fixture: success for 25 on the unknown campaign 9. -/
def payEvS25u : PaymentEvent :=
  { donationId := "DON-C", userId := "u2", userEmail := "u2@x",
    campaignId := some 9, amount := some 25, timestamp := "T4",
    status := "success", reason := none, currentBalance := none,
    previousBalance := some 30, newBalance := some 5, idempotencyKey := "KC" }

/-- An aggregator-state fixture: campaign 1 at total 0 with both cache entries set. -/
def aggSt0 : AggState :=
  { campaigns := [(1, some 0)],
    cache := { perCampaign := [(1, "cached1")], allCampaigns := some "cachedAll" } }

/-- Witness for C4 at a concrete input: a success for campaign 1 bumps its total
    and deletes both cache entries. -/
theorem c4_aggregator_dispatch_witness :
    payEvS60.status = "success" ∧ payEvS60.campaignId = some 1 ∧
    lookupKey aggSt0.campaigns 1 = some (some 0) ∧
    (lookupKey (aggStep aggSt0 payEvS60).campaigns 1 =
        some (jsAdd (some 0) payEvS60.amount) ∧
      (∀ c2, c2 ≠ 1 →
        lookupKey (aggStep aggSt0 payEvS60).campaigns c2 =
          lookupKey aggSt0.campaigns c2) ∧
      lookupKey (aggStep aggSt0 payEvS60).cache.perCampaign 1 = none ∧
      (aggStep aggSt0 payEvS60).cache.allCampaigns = none) := by
  refine ⟨rfl, rfl, by decide, ?_⟩
  exact (c4_aggregator_dispatch aggSt0 payEvS60).1 rfl 1 (some 0) rfl (by decide)

theorem successAmountsFor_cons (c : ℤ) (e : PaymentEvent) (evs : List PaymentEvent) :
    successAmountsFor c (e :: evs) =
      if e.status = "success" ∧ e.campaignId = some c
      then e.amount :: successAmountsFor c evs
      else successAmountsFor c evs := by
  by_cases h : e.status = "success" ∧ e.campaignId = some c
  · simp [successAmountsFor, List.filter, h]
  · simp [successAmountsFor, List.filter, h]

theorem jsAdd_foldl_sum (l : List (Option ℚ)) :
    ∀ a0 : ℚ, (∀ x ∈ l, x.isSome) →
      l.foldl jsAdd (some a0) =
        some (a0 + (l.map (fun x => x.getD 0)).sum) := by
  induction l with
  | nil => intro a0 _; simp
  | cons x rest ih =>
    intro a0 hsome
    obtain ⟨v, hv⟩ := Option.isSome_iff_exists.mp
      (hsome x (List.mem_cons_self x rest))
    have hrec := ih (a0 + v) (fun y hy => hsome y (List.mem_cons_of_mem x hy))
    rw [hv]
    simp only [List.foldl_cons, jsAdd, hrec, List.map_cons, List.sum_cons,
      Option.getD_some]
    congr 1
    ring

theorem aggRun_total (c : ℤ) (evs : List PaymentEvent) :
    ∀ (st : AggState) (t0 : Option ℚ), lookupKey st.campaigns c = some t0 →
      lookupKey (aggRun st evs).campaigns c =
        some ((successAmountsFor c evs).foldl jsAdd t0) := by
  induction evs with
  | nil =>
    intro st t0 h
    simpa [aggRun, successAmountsFor] using h
  | cons e rest ih =>
    intro st t0 h
    have hrun : aggRun st (e :: rest) = aggRun (aggStep st e) rest := rfl
    rw [hrun, successAmountsFor_cons]
    by_cases hs : e.status = "success"
    · cases hcid : e.campaignId with
      | none =>
        have hstep : aggStep st e = st := by
          simp [aggStep, hs, updateCampaignTotal, hcid]
        rw [hstep, if_neg (fun hcon => by simp at hcon)]
        exact ih st t0 h
      | some c2 =>
        by_cases hc2 : c2 = c
        · subst hc2
          have hlook : lookupKey (aggStep st e).campaigns c2 =
              some (jsAdd t0 e.amount) := by
            have hstep : (aggStep st e).campaigns =
                setKey st.campaigns c2 (jsAdd t0 e.amount) := by
              simp [aggStep, hs, updateCampaignTotal, hcid, h]
            rw [hstep]
            exact lookupKey_setKey_self st.campaigns c2 t0 (jsAdd t0 e.amount) h
          rw [if_pos ⟨hs, rfl⟩, List.foldl_cons]
          exact ih (aggStep st e) (jsAdd t0 e.amount) hlook
        · have hpres : lookupKey (aggStep st e).campaigns c = some t0 := by
            cases ht2 : lookupKey st.campaigns c2 with
            | none =>
              have hstep : aggStep st e = st := by
                simp [aggStep, hs, updateCampaignTotal, hcid, ht2]
              rw [hstep]
              exact h
            | some t2 =>
              have hstep : (aggStep st e).campaigns =
                  setKey st.campaigns c2 (jsAdd t2 e.amount) := by
                simp [aggStep, hs, updateCampaignTotal, hcid, ht2]
              rw [hstep,
                lookupKey_setKey_ne st.campaigns c2 c (jsAdd t2 e.amount)
                  (Ne.symm hc2)]
              exact h
          have hcond : ¬(e.status = "success" ∧ some c2 = some c) := by
            intro hcon
            exact hc2 (Option.some_inj.mp hcon.2)
          rw [if_neg hcond]
          exact ih (aggStep st e) t0 hpres
    · have hstep : aggStep st e = st := by simp [aggStep, hs]
      rw [hstep, if_neg (fun hcon => hs hcon.1)]
      exact ih st t0 h

/-- C5: after the aggregator processes any finite event sequence, a campaign's
    raised total equals its initial total plus the amounts of exactly the
    success-outcome events naming that campaign (folded with the storage
    addition, which simplifies to the plain rational sum when every such amount
    is numeric); failure events never change any total. -/
theorem c5_monotonic_aggregation (st : AggState) (evs : List PaymentEvent)
    (c : ℤ) (t0 : Option ℚ) (h : lookupKey st.campaigns c = some t0) :
    lookupKey (aggRun st evs).campaigns c =
      some ((successAmountsFor c evs).foldl jsAdd t0) ∧
    (∀ a0, t0 = some a0 → (∀ x ∈ successAmountsFor c evs, x.isSome) →
      lookupKey (aggRun st evs).campaigns c =
        some (some (a0 + ((successAmountsFor c evs).map (fun x => x.getD 0)).sum))) ∧
    (∀ e, e.status ≠ "success" → aggStep st e = st) := by
  refine ⟨aggRun_total c evs st t0 h, ?_, ?_⟩
  · intro a0 ht0 hsome
    rw [aggRun_total c evs st t0 h, ht0, jsAdd_foldl_sum (successAmountsFor c evs) a0 hsome]
  · intro e hs
    simp [aggStep, hs]

/-- Witness for C5 at a concrete input: from total 0, a success for 60 on
    campaign 1, a failure on campaign 1 and a success on unknown campaign 9
    leave campaign 1 at exactly 0 + 60. -/
theorem c5_monotonic_aggregation_witness :
    lookupKey aggSt0.campaigns 1 = some (some 0) ∧
    (∀ x ∈ successAmountsFor 1 [payEvS60, payEvF40, payEvS25u], x.isSome) ∧
    lookupKey (aggRun aggSt0 [payEvS60, payEvF40, payEvS25u]).campaigns 1 =
      some (some ((0 : ℚ) +
        ((successAmountsFor 1 [payEvS60, payEvF40, payEvS25u]).map
          (fun x => x.getD 0)).sum)) := by
  refine ⟨by decide, by decide, ?_⟩
  exact (c5_monotonic_aggregation aggSt0 [payEvS60, payEvF40, payEvS25u] 1
    (some 0) (by decide)).2.1 0 rfl (by decide)

theorem submitDonation_replay (st : IntakeState) (req : DonateRequest) (k : String)
    (entry : CacheEntry) (hk : req.idempotencyKey = some k) (hne : k ≠ "")
    (hc : lookupKey st.idempotencyCache k = some entry) (freshId ts : String)
    (now : ℕ) :
    submitDonation freshId ts now req st =
      ({ entry.response with
         status := 200
         replayed := true
         message := "Donation already processed (duplicate request prevented)" },
       st) := by
  unfold submitDonation
  rw [hk]
  simp [headerTruthy, hne, hc]

/-- A well-formed donate request with key K1 for 10 dollars to campaign 1. -/
def reqK1 : DonateRequest :=
  { campaignId := some (JsVal.vStr "1"), amount := some (JsVal.vStr "10"),
    idempotencyKey := some "K1", userId := "u1", userEmail := "u1@x" }

/-- An invalid donate request reusing key K1: no campaign and a zero amount. -/
def reqK1bad : DonateRequest :=
  { campaignId := none, amount := some (JsVal.vNum 0),
    idempotencyKey := some "K1", userId := "u1", userEmail := "u1@x" }

/-- The empty intake state. -/
def intakeSt0 : IntakeState := { idempotencyCache := [], published := [] }

/-- C3 as frozen is refuted: the replayed response is not identical-but-for-the-
    replayed-flag to the original response - the same donation object comes back,
    but the message field is overwritten and the HTTP status is 200 instead of
    the original 201. -/
theorem c3_replay_counterexample :
    (submitDonation "DON-2" "T2" 5 reqK1
        (submitDonation "DON-1" "T1" 0 reqK1 intakeSt0).2).1.replayed = true ∧
    (submitDonation "DON-2" "T2" 5 reqK1
        (submitDonation "DON-1" "T1" 0 reqK1 intakeSt0).2).1.donation =
      (submitDonation "DON-1" "T1" 0 reqK1 intakeSt0).1.donation ∧
    (submitDonation "DON-2" "T2" 5 reqK1
        (submitDonation "DON-1" "T1" 0 reqK1 intakeSt0).2).1.message ≠
      (submitDonation "DON-1" "T1" 0 reqK1 intakeSt0).1.message ∧
    (submitDonation "DON-2" "T2" 5 reqK1
        (submitDonation "DON-1" "T1" 0 reqK1 intakeSt0).2).1.status = 200 ∧
    (submitDonation "DON-1" "T1" 0 reqK1 intakeSt0).1.status = 201 := by
  refine ⟨?_, ?_, ?_, ?_, ?_⟩ <;>
    norm_num +decide [submitDonation, headerTruthy, jsTruthy, jsLe, parseFloatVal,
      parseFloatChars, takeDigits, digitVal, natOfDigits, fracOfDigits, lookupKey,
      reqK1, intakeSt0, publishDonation]

/-- C3 amended: a submission whose idempotency key is cached replays the cached
    receipt with the same donation object and replayed set, leaves the intake
    state untouched (no second publish, no cache write, so the business effect
    stays that of the first submission), and does so identically on every retry;
    but the replay overwrites the message field and answers HTTP 200 where the
    original answered 201. -/
theorem c3_idempotent_replay (st : IntakeState) (req : DonateRequest) (k : String)
    (entry : CacheEntry) (hk : req.idempotencyKey = some k) (hne : k ≠ "")
    (hc : lookupKey st.idempotencyCache k = some entry) :
    ∀ freshId ts : String, ∀ now : ℕ,
      submitDonation freshId ts now req st =
        ({ entry.response with
           status := 200
           replayed := true
           message := "Donation already processed (duplicate request prevented)" },
         st) ∧
      (submitDonation freshId ts now req st).1.donation =
        entry.response.donation ∧
      (submitDonation freshId ts now req st).2.published = st.published ∧
      ∀ f2 t2 : String, ∀ n2 : ℕ,
        submitDonation f2 t2 n2 req st = submitDonation freshId ts now req st := by
  intro freshId ts now
  have he := submitDonation_replay st req k entry hk hne hc freshId ts now
  refine ⟨he, by rw [he], by rw [he], ?_⟩
  intro f2 t2 n2
  rw [he, submitDonation_replay st req k entry hk hne hc f2 t2 n2]

/-- A cached response fixture for key K1. -/
def entry0 : CacheEntry :=
  { response :=
      { status := 201, success := true, error := none,
        message := "Donation received successfully",
        donation := some
          { donationId := "DON-1", campaignId := some 1, amount := some 10,
            currency := "USD", timestamp := "T1" },
        replayed := false },
    timestamp := 0 }

/-- An intake state whose idempotency cache already holds key K1. -/
def cachedSt : IntakeState :=
  { idempotencyCache := [("K1", entry0)], published := [] }

/-- Witness for the amended C3 at a concrete input. -/
theorem c3_idempotent_replay_witness :
    reqK1.idempotencyKey = some "K1" ∧
    lookupKey cachedSt.idempotencyCache "K1" = some entry0 ∧
    (submitDonation "DON-9" "T9" 9 reqK1 cachedSt =
        ({ entry0.response with
           status := 200
           replayed := true
           message := "Donation already processed (duplicate request prevented)" },
         cachedSt) ∧
      (submitDonation "DON-9" "T9" 9 reqK1 cachedSt).1.donation =
        entry0.response.donation ∧
      (submitDonation "DON-9" "T9" 9 reqK1 cachedSt).2.published =
        cachedSt.published ∧
      ∀ f2 t2 : String, ∀ n2 : ℕ,
        submitDonation f2 t2 n2 reqK1 cachedSt =
          submitDonation "DON-9" "T9" 9 reqK1 cachedSt) := by
  refine ⟨rfl, by decide, ?_⟩
  exact c3_idempotent_replay cachedSt reqK1 "K1" entry0 rfl (by decide)
    (by decide) "DON-9" "T9" 9

/-- C8: the idempotency-cache lookup precedes all body validation - any two
    requests carrying the same cached key get the identical replayed response
    and leave the state unchanged, however invalid or different their bodies. -/
theorem c8_cached_key_skips_validation (st : IntakeState) (k : String)
    (entry : CacheEntry) (hc : lookupKey st.idempotencyCache k = some entry)
    (hne : k ≠ "") (r1 r2 : DonateRequest)
    (h1 : r1.idempotencyKey = some k) (h2 : r2.idempotencyKey = some k)
    (f1 t1 : String) (n1 : ℕ) (f2 t2 : String) (n2 : ℕ) :
    submitDonation f1 t1 n1 r1 st = submitDonation f2 t2 n2 r2 st ∧
    (submitDonation f1 t1 n1 r1 st).1.replayed = true ∧
    (submitDonation f1 t1 n1 r1 st).2 = st := by
  have e1 := submitDonation_replay st r1 k entry h1 hne hc f1 t1 n1
  have e2 := submitDonation_replay st r2 k entry h2 hne hc f2 t2 n2
  rw [e1, e2]
  exact ⟨rfl, rfl, rfl⟩

/-- Witness for C8 at a concrete input: a valid and an invalid body with the
    same cached key draw the same replayed response. -/
theorem c8_cached_key_skips_validation_witness :
    lookupKey cachedSt.idempotencyCache "K1" = some entry0 ∧
    reqK1bad.amount = some (JsVal.vNum 0) ∧ reqK1bad.campaignId = none ∧
    (submitDonation "F1" "T1" 1 reqK1 cachedSt =
        submitDonation "F2" "T2" 2 reqK1bad cachedSt ∧
      (submitDonation "F1" "T1" 1 reqK1 cachedSt).1.replayed = true ∧
      (submitDonation "F1" "T1" 1 reqK1 cachedSt).2 = cachedSt) := by
  refine ⟨by decide, rfl, rfl, ?_⟩
  exact c8_cached_key_skips_validation cachedSt "K1" entry0 (by decide)
    (by decide) reqK1 reqK1bad rfl rfl "F1" "T1" 1 "F2" "T2" 2

/-- C7 as frozen is refuted: a request whose amount is invalid (0) is NOT
    rejected with an error response when its idempotency key is already cached -
    the cache lookup runs first and replays a 200 success, though still without
    publishing an event. -/
theorem c7_validation_counterexample :
    (submitDonation "DON-2" "T2" 5 reqK1bad cachedSt).1.status = 200 ∧
    (submitDonation "DON-2" "T2" 5 reqK1bad cachedSt).1.error = none ∧
    (submitDonation "DON-2" "T2" 5 reqK1bad cachedSt).1.replayed = true ∧
    (submitDonation "DON-2" "T2" 5 reqK1bad cachedSt).2.published =
      cachedSt.published := by
  refine ⟨?_, ?_, ?_, ?_⟩ <;> decide

/-- C7 amended: a request with a missing or empty idempotency key is rejected
    synchronously with an error and publishes nothing; so is a request whose key
    is not yet cached and whose amount is falsy or parses to a value at most 0;
    a request whose key is cached is replayed instead of rejected; and in every
    case no donation-requested event reaches the bus unless the request is
    accepted with a 201. -/
theorem c7_validation_rejected_before_bus (freshId ts : String) (now : ℕ)
    (req : DonateRequest) (st : IntakeState) :
    (headerTruthy req.idempotencyKey = false →
      (submitDonation freshId ts now req st).1.status = 400 ∧
      (submitDonation freshId ts now req st).1.error =
        some ("Idempotency key required") ∧
      (submitDonation freshId ts now req st).2 = st) ∧
    (∀ k, req.idempotencyKey = some k → k ≠ "" →
      lookupKey st.idempotencyCache k = none →
      (jsTruthy req.amount = false ∨ jsLe (parseFloatVal req.amount) 0 = true) →
      (submitDonation freshId ts now req st).1.status = 400 ∧
      (submitDonation freshId ts now req st).1.error.isSome = true ∧
      (submitDonation freshId ts now req st).2 = st) ∧
    ((submitDonation freshId ts now req st).2.published = st.published ∨
      (submitDonation freshId ts now req st).1.status = 201) := by
  refine ⟨?_, ?_, ?_⟩
  · intro h
    refine ⟨?_, ?_, ?_⟩ <;> simp [submitDonation, h]
  · intro k hk hne hmiss hbad
    have htr : headerTruthy (some k) = true := by
      simp [headerTruthy, hne]
    by_cases hcamp : jsTruthy req.campaignId
    · have hcond : (!(jsTruthy req.amount) || jsLe (parseFloatVal req.amount) 0)
          = true := by
        rcases hbad with h | h
        · simp [h]
        · simp [h]
      refine ⟨?_, ?_, ?_⟩ <;>
        simp [submitDonation, htr, hk, hmiss, hcamp, hcond]
    · refine ⟨?_, ?_, ?_⟩ <;>
        simp [submitDonation, htr, hk, hmiss, hcamp]
  · by_cases h1 : headerTruthy req.idempotencyKey
    · cases hc : lookupKey st.idempotencyCache (req.idempotencyKey.getD "") with
      | some entry =>
        left
        simp [submitDonation, h1, hc]
      | none =>
        by_cases h2 : jsTruthy req.campaignId
        · by_cases h3 : (!(jsTruthy req.amount) ||
              jsLe (parseFloatVal req.amount) 0) = true
          · left
            simp [submitDonation, h1, hc, h2, h3]
          · right
            simp [submitDonation, h1, hc, h2, h3]
        · left
          simp [submitDonation, h1, hc, h2]
    · left
      simp [submitDonation, h1]

/-- Witness for the amended C7 at a concrete input: a fresh key with amount 0
    is rejected with 400 and nothing is published. -/
theorem c7_validation_rejected_before_bus_witness :
    reqK1bad.idempotencyKey = some "K1" ∧
    lookupKey intakeSt0.idempotencyCache "K1" = none ∧
    jsTruthy reqK1bad.amount = false ∧
    ((submitDonation "DON-1" "T1" 0 reqK1bad intakeSt0).1.status = 400 ∧
      (submitDonation "DON-1" "T1" 0 reqK1bad intakeSt0).1.error.isSome = true ∧
      (submitDonation "DON-1" "T1" 0 reqK1bad intakeSt0).2 = intakeSt0) := by
  refine ⟨rfl, by decide, by decide, ?_⟩
  exact (c7_validation_rejected_before_bus "DON-1" "T1" 0 reqK1bad intakeSt0).2.1
    "K1" rfl (by decide) (by decide) (Or.inl (by decide))

/-- C9: a non-empty amount string whose parseFloat is NaN (no numeric prefix)
    passes both amount checks, the request is accepted with a 201, and the
    published donation-requested event carries the NaN amount. -/
theorem c9_nan_amount_accepted (freshId ts : String) (now : ℕ)
    (req : DonateRequest) (st : IntakeState) (k s : String)
    (hk : req.idempotencyKey = some k) (hne : k ≠ "")
    (hmiss : lookupKey st.idempotencyCache k = none)
    (hcamp : jsTruthy req.campaignId = true)
    (ham : req.amount = some (JsVal.vStr s)) (hsne : s ≠ "")
    (hnan : parseFloatChars s.data = none) :
    (submitDonation freshId ts now req st).1.status = 201 ∧
    (submitDonation freshId ts now req st).2.published = st.published ++
      [{ donationId := freshId, idempotencyKey := k,
         campaignId := parseIntVal req.campaignId, userId := req.userId,
         userEmail := req.userEmail, amount := none, currency := "USD",
         timestamp := ts, status := "pending" }] := by
  have htr : headerTruthy (some k) = true := by
    simp [headerTruthy, hne]
  have hamt : jsTruthy req.amount = true := by
    rw [ham]
    simp [jsTruthy, hsne]
  have hle : jsLe (parseFloatVal req.amount) 0 = false := by
    rw [ham]
    simp [parseFloatVal, hnan, jsLe]
  have hfl : parseFloatVal req.amount = none := by
    rw [ham]
    simp [parseFloatVal, hnan]
  constructor <;>
    simp [submitDonation, htr, hk, hmiss, hcamp, hamt, hle, hfl, jsLe,
      publishDonation]

/-- Witness for C9 at a concrete input: the amount string abc is accepted and
    published as NaN. -/
theorem c9_nan_amount_accepted_witness :
    lookupKey intakeSt0.idempotencyCache "K9" = none ∧
    parseFloatChars "abc".data = none ∧
    ((submitDonation "DON-9" "T9" 0
        { campaignId := some (JsVal.vStr "1"),
          amount := some (JsVal.vStr "abc"),
          idempotencyKey := some "K9", userId := "u1", userEmail := "u1@x" }
        intakeSt0).1.status = 201 ∧
      (submitDonation "DON-9" "T9" 0
        { campaignId := some (JsVal.vStr "1"),
          amount := some (JsVal.vStr "abc"),
          idempotencyKey := some "K9", userId := "u1", userEmail := "u1@x" }
        intakeSt0).2.published = intakeSt0.published ++
        [{ donationId := "DON-9", idempotencyKey := "K9",
           campaignId := parseIntVal (some (JsVal.vStr "1")), userId := "u1",
           userEmail := "u1@x", amount := none, currency := "USD",
           timestamp := "T9", status := "pending" }]) := by
  refine ⟨by decide, by decide, ?_⟩
  exact c9_nan_amount_accepted "DON-9" "T9" 0
    { campaignId := some (JsVal.vStr "1"), amount := some (JsVal.vStr "abc"),
      idempotencyKey := some "K9", userId := "u1", userEmail := "u1@x" }
    intakeSt0 "K9" "abc" rfl (by decide) (by decide) (by decide) rfl
    (by decide) (by decide)

/-- C10: a donation naming a campaign id absent from the campaigns table passes
    intake (only presence of campaignId is checked, not existence), is settled
    by the payment processor as a success debiting the donor, and the aggregator
    then rolls back and acknowledges - the donor's balance strictly decreases
    while no campaign total and no cache entry changes. -/
theorem c10_unknown_campaign_debits_without_credit
    (freshId ts tsP : String) (now : ℕ) (req : DonateRequest)
    (stI : IntakeState) (agg : AggState) (l : AccountLedger)
    (k cs : String) (c : ℤ) (a b : ℚ)
    (hk : req.idempotencyKey = some k) (hne : k ≠ "")
    (hmiss : lookupKey stI.idempotencyCache k = none)
    (hcamp : req.campaignId = some (JsVal.vStr cs)) (hcsne : cs ≠ "")
    (hcid : parseIntChars cs.data = some c)
    (ham : jsTruthy req.amount = true)
    (hfl : parseFloatVal req.amount = some a)
    (hapos : 0 < a)
    (hacct : lookupKey l req.userId = some b) (hba : a ≤ b)
    (hunknown : lookupKey agg.campaigns c = none) :
    ∃ ev : DonationEvent,
      (submitDonation freshId ts now req stI).1.status = 201 ∧
      (submitDonation freshId ts now req stI).2.published =
        stI.published ++ [ev] ∧
      ev.campaignId = some c ∧ ev.userId = req.userId ∧ ev.amount = some a ∧
      processDonation { ledger := l, published := [] } ev tsP =
        { ledger := setKey l req.userId (b - a),
          published := [paymentSuccessEvent ev tsP b (b - a)] } ∧
      lookupKey (setKey l req.userId (b - a)) req.userId = some (b - a) ∧
      b - a < b ∧
      aggStep agg (paymentSuccessEvent ev tsP b (b - a)) = agg := by
  have htr : headerTruthy (some k) = true := by
    simp [headerTruthy, hne]
  have hct : jsTruthy req.campaignId = true := by
    rw [hcamp]
    simp [jsTruthy, hcsne]
  have hle : jsLe (some a) 0 = false := by
    simp [jsLe, not_le]
    exact hapos
  have hpi : parseIntVal req.campaignId = some c := by
    rw [hcamp]
    simp [parseIntVal, hcid]
  have hacct2 : getUserBalance l req.userId = some b := hacct
  have hltf : ¬ (b < a) := not_lt.mpr hba
  let ev0 : DonationEvent :=
    { donationId := freshId, idempotencyKey := k, campaignId := some c,
      userId := req.userId, userEmail := req.userEmail, amount := some a,
      currency := "USD", timestamp := ts, status := "pending" }
  refine ⟨ev0, ?_, ?_, rfl, rfl, rfl, ?_, ?_, ?_, ?_⟩
  · simp [submitDonation, htr, hk, hmiss, hct, ham, hfl, hle]
  · simp [submitDonation, htr, hk, hmiss, hct, ham, hle, hpi, hfl,
      publishDonation]
  · rw [processDonation_eq_settle]
    simp [settle, hacct2, hltf,
      deductBalance_ok l req.userId a b hacct2 hba]
  · exact lookupKey_setKey_self l req.userId b (b - a) hacct
  · exact sub_lt_self b hapos
  · simp [aggStep, paymentSuccessEvent, updateCampaignTotal, hunknown]

/-- A donate request naming the unknown campaign 9: 25 dollars from donor u2. -/
def reqU2 : DonateRequest :=
  { campaignId := some (JsVal.vStr "9"), amount := some (JsVal.vStr "25"),
    idempotencyKey := some "K10", userId := "u2", userEmail := "u2@x" }

/-- An account-ledger fixture: donor u2 holds balance 30. -/
def ledgerU2 : AccountLedger := [("u2", 30)]

/-- Witness for C10 at a concrete input: campaign 9 is not in the table, donor
    u2 is debited from 30 to 5, and the aggregator state stays put. -/
theorem c10_unknown_campaign_debits_without_credit_witness :
    parseIntChars "9".data = some 9 ∧
    lookupKey aggSt0.campaigns 9 = none ∧
    lookupKey ledgerU2 "u2" = some 30 ∧
    (∃ ev : DonationEvent,
      (submitDonation "DON-X" "TX" 0 reqU2 intakeSt0).1.status = 201 ∧
      (submitDonation "DON-X" "TX" 0 reqU2 intakeSt0).2.published =
        intakeSt0.published ++ [ev] ∧
      ev.campaignId = some 9 ∧ ev.userId = reqU2.userId ∧
      ev.amount = some 25 ∧
      processDonation { ledger := ledgerU2, published := [] } ev "TP" =
        { ledger := setKey ledgerU2 reqU2.userId ((30 : ℚ) - 25),
          published := [paymentSuccessEvent ev "TP" 30 ((30 : ℚ) - 25)] } ∧
      lookupKey (setKey ledgerU2 reqU2.userId ((30 : ℚ) - 25)) reqU2.userId =
        some ((30 : ℚ) - 25) ∧
      (30 : ℚ) - 25 < 30 ∧
      aggStep aggSt0 (paymentSuccessEvent ev "TP" 30 ((30 : ℚ) - 25)) =
        aggSt0) := by
  refine ⟨by decide, by decide, by decide, ?_⟩
  exact c10_unknown_campaign_debits_without_credit "DON-X" "TX" "TP" 0 reqU2
    intakeSt0 aggSt0 ledgerU2 "K10" "9" 9 25 30 rfl (by decide) (by decide)
    rfl (by decide) (by decide) (by decide)
    (by norm_num +decide [parseFloatVal, parseFloatChars, takeDigits, digitVal,
      natOfDigits, fracOfDigits, reqU2])
    (by norm_num) (by decide) (by norm_num) (by decide)
